import Mathlib

/-!
Verification of the deploy endpoint in `src/deploy.py` (a Flask app that
shells out to the Stellar CLI and relays the subprocess result as JSON).

The embedding is shallow: the HTTP handler `deploy_contract` becomes a pure
function of the incoming request and of an environment function `run` that
maps the argument vector handed to `subprocess.run` to the outcome of the
child process (a completed process with exit code / stdout / stderr, or an
exception carrying its message string, the Python `str(e)`).
-/

namespace Deploy

/-- JSON values, as produced by Flask's `jsonify` on the dictionaries the
handler builds. Objects keep the field order of the source dictionaries. -/
inductive Json where
  | bool (b : Bool)
  | str (s : String)
  | obj (fields : List (String × Json))

/-- Field lookup in a JSON object; `none` on non-objects or missing keys. -/
def Json.getField : Json → String → Option Json
  | .obj fields, k => fields.lookup k
  | _, _ => none

/-- HTTP method of the incoming request; the route accepts GET and POST. -/
inductive Method where
  | GET
  | POST
deriving DecidableEq, Repr

/-- An incoming HTTP request to `/deploy`: method, request body and query
string. The handler consumes none of these. -/
structure Request where
  method : Method
  body : String
  query : String
deriving DecidableEq, Repr

/-- Result of a completed child process as captured by
`subprocess.run(command, stdout=PIPE, stderr=PIPE, text=True)`:
`returncode`, decoded `stdout`, decoded `stderr`. -/
structure SubprocessResult where
  returncode : Int
  stdout : String
  stderr : String
deriving DecidableEq, Repr

/-- Outcome of attempting to run the child process: either the process
completed (any exit code), or an exception was raised before/during
execution, carrying the message `str(e)`. -/
inductive SubprocessOutcome where
  | completed (r : SubprocessResult)
  | raised (msg : String)
deriving DecidableEq, Repr

/-- An HTTP response: status code and JSON body. `jsonify` without an
explicit status yields 200. -/
structure Response where
  status : Nat
  body : Json

/-- The fixed Stellar CLI command list built at deploy.py lines 11-16. -/
def command : List String :=
  ["stellar", "contract", "deploy",
   "--wasm", "target/wasm32-unknown-unknown/release/hello_world.wasm",
   "--source", "mediator",
   "--network", "testnet"]

/-- The argument vector the handler passes to `subprocess.run` for a given
request. The source builds `command` without reading the request, so this
is constant in `req`. -/
def deploy_command (req : Request) : List String :=
  command

/-- The `/deploy` handler (deploy.py lines 9-28). `run` is the environment:
it maps the argument vector given to `subprocess.run` to the subprocess
outcome. Exit code 0 yields 200 with `output` = stdout; nonzero yields 400
with `error` = stderr; an exception yields 500 with `error` = `str(e)`. -/
def deploy_contract (req : Request) (run : List String → SubprocessOutcome) :
    Response :=
  match run (deploy_command req) with
  | .completed result =>
      if result.returncode = 0 then
        ⟨200, .obj [("success", .bool true), ("output", .str result.stdout)]⟩
      else
        ⟨400, .obj [("success", .bool false), ("error", .str result.stderr)]⟩
  | .raised e =>
      ⟨500, .obj [("success", .bool false), ("error", .str e)]⟩

/-- Host and port passed to `app.run` in the `__main__` guard
(deploy.py line 31). -/
structure ServerConfig where
  host : String
  port : Nat
deriving DecidableEq, Repr

/-- The configuration used when the module runs as the main program:
`app.run(host='0.0.0.0', port=5000)`. -/
def main_config : ServerConfig :=
  ⟨"0.0.0.0", 5000⟩

/-- C1: when the spawned subprocess terminates with exit code 0, the handler
responds with status 200 and body containing success true and
output equal to the captured stdout, verbatim. -/
theorem deploy_exit_zero_response (req : Request)
    (run : List String → SubprocessOutcome) (out err : String)
    (h : run (deploy_command req) = .completed ⟨0, out, err⟩) :
    deploy_contract req run =
      ⟨200, .obj [("success", .bool true), ("output", .str out)]⟩ := by
  unfold deploy_contract
  rw [h]
  simp

/-- Witness for C1 at a concrete request and environment. -/
theorem deploy_exit_zero_response_witness :
    deploy_contract ⟨.GET, "", ""⟩
        (fun _ => .completed ⟨0, "contract id C123", "warning text"⟩) =
      ⟨200, .obj [("success", .bool true), ("output", .str "contract id C123")]⟩ :=
  deploy_exit_zero_response ⟨.GET, "", ""⟩ _ "contract id C123" "warning text" rfl

/-- C2: when the spawned subprocess terminates with a nonzero exit code, the
handler responds with status 400 and body containing success false and
error equal to the captured stderr, verbatim. -/
theorem deploy_exit_nonzero_response (req : Request)
    (run : List String → SubprocessOutcome) (code : Int) (out err : String)
    (h : run (deploy_command req) = .completed ⟨code, out, err⟩)
    (hc : code ≠ 0) :
    deploy_contract req run =
      ⟨400, .obj [("success", .bool false), ("error", .str err)]⟩ := by
  unfold deploy_contract
  rw [h]
  simp [hc]

/-- Witness for C2 at a concrete request and environment. -/
theorem deploy_exit_nonzero_response_witness :
    deploy_contract ⟨.POST, "ignored", "x=1"⟩
        (fun _ => .completed ⟨1, "partial out", "tool diagnostic"⟩) =
      ⟨400, .obj [("success", .bool false), ("error", .str "tool diagnostic")]⟩ :=
  deploy_exit_nonzero_response ⟨.POST, "ignored", "x=1"⟩ _ 1 "partial out"
    "tool diagnostic" rfl (by decide)

/-- C3: when spawning or running the subprocess raises an exception, the
handler responds with status 500 and body containing success false and
error equal to the string form of the exception message. -/
theorem deploy_exception_response (req : Request)
    (run : List String → SubprocessOutcome) (e : String)
    (h : run (deploy_command req) = .raised e) :
    deploy_contract req run =
      ⟨500, .obj [("success", .bool false), ("error", .str e)]⟩ := by
  unfold deploy_contract
  rw [h]

/-- Witness for C3 at a concrete request and environment. -/
theorem deploy_exception_response_witness :
    deploy_contract ⟨.GET, "", ""⟩
        (fun _ => .raised "No such file or directory: stellar") =
      ⟨500, .obj [("success", .bool false),
                  ("error", .str "No such file or directory: stellar")]⟩ :=
  deploy_exception_response ⟨.GET, "", ""⟩ _ "No such file or directory: stellar" rfl

/-- C4: the argument vector passed to the subprocess is the fixed Stellar CLI
list, independent of the request (method, body, query). -/
theorem deploy_command_is_fixed (req : Request) :
    deploy_command req =
      ["stellar", "contract", "deploy",
       "--wasm", "target/wasm32-unknown-unknown/release/hello_world.wasm",
       "--source", "mediator",
       "--network", "testnet"] :=
  rfl

/-- C5: for every request and every subprocess outcome, the response body is
a JSON object with a boolean field named success. -/
theorem deploy_response_has_success_bool (req : Request)
    (run : List String → SubprocessOutcome) :
    ∃ b : Bool,
      Json.getField (deploy_contract req run).body "success" = some (.bool b) := by
  unfold deploy_contract
  cases run (deploy_command req) with
  | completed r =>
    by_cases hc : r.returncode = 0
    · exact ⟨true, by simp [hc, Json.getField]⟩
    · exact ⟨false, by simp [hc, Json.getField]⟩
  | raised e => exact ⟨false, rfl⟩

/-- C6: two requests (any methods, bodies, query strings) whose subprocess
invocations yield the same outcome receive identical responses: the response
depends only on the subprocess outcome. -/
theorem deploy_response_request_independent (r1 r2 : Request)
    (run1 run2 : List String → SubprocessOutcome)
    (h : run1 (deploy_command r1) = run2 (deploy_command r2)) :
    deploy_contract r1 run1 = deploy_contract r2 run2 := by
  unfold deploy_contract
  rw [h]

/-- Witness for C6: a GET and a POST with different bodies and query strings,
same subprocess outcome, identical responses. -/
theorem deploy_response_request_independent_witness :
    deploy_contract ⟨.GET, "body A", "a=1"⟩
        (fun _ => .completed ⟨0, "out", "err"⟩) =
      deploy_contract ⟨.POST, "body B", "b=2"⟩
        (fun _ => .completed ⟨0, "out", "err"⟩) :=
  deploy_response_request_independent ⟨.GET, "body A", "a=1"⟩
    ⟨.POST, "body B", "b=2"⟩ _ _ rfl

/-- C7 counterexample: at a concrete request where the subprocess raises an
exception whose message is the empty string, the 500 response error field
is the empty string, not a non-empty string. -/
theorem deploy_exception_empty_error_cex :
    (deploy_contract ⟨.GET, "", ""⟩ (fun _ => .raised "")).status = 500 ∧
    Json.getField (deploy_contract ⟨.GET, "", ""⟩ (fun _ => .raised "")).body
        "error" = some (.str "") :=
  ⟨rfl, rfl⟩

/-- C7 amended: on an exception the response has status 500 and its error
field is exactly the exception message; it is a non-empty string whenever
the exception message is non-empty. -/
theorem deploy_exception_error_nonempty (req : Request)
    (run : List String → SubprocessOutcome) (e : String)
    (h : run (deploy_command req) = .raised e) (he : e ≠ "") :
    (deploy_contract req run).status = 500 ∧
    ∃ m, Json.getField (deploy_contract req run).body "error" = some (.str m)
        ∧ m ≠ "" := by
  refine ⟨?_, e, ?_, he⟩
  · unfold deploy_contract
    rw [h]
  · unfold deploy_contract
    rw [h]
    rfl

/-- Witness for the amended C7 at a concrete request and environment. -/
theorem deploy_exception_error_nonempty_witness :
    (deploy_contract ⟨.POST, "", ""⟩ (fun _ => .raised "boom")).status = 500 ∧
    ∃ m, Json.getField
          (deploy_contract ⟨.POST, "", ""⟩ (fun _ => .raised "boom")).body
          "error" = some (.str m) ∧ m ≠ "" :=
  deploy_exception_error_nonempty ⟨.POST, "", ""⟩ _ "boom" rfl (by decide)

/-- C8: every subprocess outcome produces exactly one of the three specified
responses: 200 with success/output, 400 with failure/stderr, or 500 with
failure/exception message; no outcome falls outside these. -/
theorem deploy_response_trichotomy (req : Request)
    (run : List String → SubprocessOutcome) :
    (∃ out, deploy_contract req run =
        ⟨200, .obj [("success", .bool true), ("output", .str out)]⟩) ∨
    (∃ err, deploy_contract req run =
        ⟨400, .obj [("success", .bool false), ("error", .str err)]⟩) ∨
    (∃ msg, deploy_contract req run =
        ⟨500, .obj [("success", .bool false), ("error", .str msg)]⟩) := by
  unfold deploy_contract
  cases run (deploy_command req) with
  | completed r =>
    by_cases hc : r.returncode = 0
    · exact Or.inl ⟨r.stdout, by simp [hc]⟩
    · exact Or.inr (Or.inl ⟨r.stderr, by simp [hc]⟩)
  | raised e => exact Or.inr (Or.inr ⟨e, rfl⟩)

/-- C9: when run as the main program, the server binds host 0.0.0.0 (all
interfaces) on port 5000. -/
theorem main_binds_all_interfaces_port_5000 :
    main_config.host = "0.0.0.0" ∧ main_config.port = 5000 :=
  ⟨rfl, rfl⟩

/-- C10: the two captured streams are never mixed. On exit code 0 the body
has no error field and does not depend on stderr; on a nonzero exit code the
body has no output field and does not depend on stdout; and on a nonzero
exit with empty stderr the error field is the empty string. -/
theorem deploy_streams_not_mixed (req : Request) (code : Int)
    (out err out2 err2 : String) :
    (Json.getField
        (deploy_contract req (fun _ => .completed ⟨0, out, err⟩)).body
        "error" = none
      ∧ deploy_contract req (fun _ => .completed ⟨0, out, err⟩)
          = deploy_contract req (fun _ => .completed ⟨0, out, err2⟩))
    ∧ (code ≠ 0 →
        Json.getField
            (deploy_contract req (fun _ => .completed ⟨code, out, err⟩)).body
            "output" = none
          ∧ deploy_contract req (fun _ => .completed ⟨code, out, err⟩)
              = deploy_contract req (fun _ => .completed ⟨code, out2, err⟩))
    ∧ (code ≠ 0 →
        Json.getField
            (deploy_contract req (fun _ => .completed ⟨code, out, ""⟩)).body
            "error" = some (.str "")) := by
  refine ⟨⟨rfl, rfl⟩, fun hc => ⟨?_, ?_⟩, fun hc => ?_⟩
  · simp [deploy_contract, hc, Json.getField]
  · simp [deploy_contract, hc]
  · simp only [deploy_contract, deploy_command, if_neg hc]
    rfl

/-- Witness for C10 at a concrete request, exit code 2 and streams. -/
theorem deploy_streams_not_mixed_witness :
    (Json.getField
        (deploy_contract ⟨.GET, "", ""⟩
          (fun _ => .completed ⟨0, "o", "e"⟩)).body "error" = none
      ∧ deploy_contract ⟨.GET, "", ""⟩ (fun _ => .completed ⟨0, "o", "e"⟩)
          = deploy_contract ⟨.GET, "", ""⟩ (fun _ => .completed ⟨0, "o", "e2"⟩))
    ∧ (Json.getField
          (deploy_contract ⟨.GET, "", ""⟩
            (fun _ => .completed ⟨2, "o", "e"⟩)).body "output" = none
        ∧ deploy_contract ⟨.GET, "", ""⟩ (fun _ => .completed ⟨2, "o", "e"⟩)
            = deploy_contract ⟨.GET, "", ""⟩ (fun _ => .completed ⟨2, "o2", "e"⟩))
    ∧ Json.getField
        (deploy_contract ⟨.GET, "", ""⟩
          (fun _ => .completed ⟨2, "o", ""⟩)).body "error" = some (.str "") := by
  have h := deploy_streams_not_mixed ⟨.GET, "", ""⟩ 2 "o" "e" "o2" "e2"
  exact ⟨h.1, h.2.1 (by decide), h.2.2 (by decide)⟩

end Deploy
